import Mathlib

/-!
Verification development for the Luckin analytics reconciliation pipeline
(`improved_luckin_analytics.py`).  The per-platform normalizers
(`process_doordash_data`, `process_uber_data`, `process_grubhub_data`), the
validator filter, the unifier, and the metrics layer
(`calculate_retention_metrics`, `calculate_rfm_scores`, the growth block of
`main`) are embedded shallowly: a raw CSV table is a list of rows of optional
string cells, the pandas elementwise coercions become per-cell parsers
returning `Option`, and the Python `try`/`except` wrappers become `Except`
bodies whose errors the wrapper maps to the empty record list.  The hidden
NumPy RNG used for the fabricated `Hour` column is made explicit as a stream
of natural-number draws.
-/

/-! ## String helpers -/

/-- Bool test: `p` is a prefix of `s` (over character lists). -/
def charListIsPref : List Char → List Char → Bool
  | [], _ => true
  | _ :: _, [] => false
  | a :: p, b :: s => a == b && charListIsPref p s

/-- Bool test: `p` occurs as a contiguous sublist of `s`. -/
def charListIsSub (p : List Char) : List Char → Bool
  | [] => p.isEmpty
  | b :: rest => charListIsPref p (b :: rest) || charListIsSub p rest

/-- ASCII lower-casing of one character. -/
def asciiLower (c : Char) : Char :=
  if 'A' ≤ c ∧ c ≤ 'Z' then Char.ofNat (c.toNat + 32) else c

/-- Case-insensitive substring containment; models
`Series.str.contains(pat, case=False)` for a single literal alternative. -/
def strContainsCI (s pat : String) : Bool :=
  charListIsSub (pat.data.map asciiLower) (s.data.map asciiLower)

/-- Case-insensitive match against any of the regex alternatives, e.g. the
pattern `'Delivered|delivered'` with `case=False` is the single alternative
`"delivered"`. -/
def strContainsAnyCI (s : String) (pats : List String) : Bool :=
  pats.any (fun p => strContainsCI s p)

/-- Status-flag matching on a raw cell with `na=False`: a missing value (NaN)
never matches. -/
def optContainsAnyCI (c : Option String) (pats : List String) : Bool :=
  match c with
  | none => false
  | some s => strContainsAnyCI s pats

/-! ## Numeric coercion: `pd.to_numeric(..., errors='coerce')` -/

/-- ASCII whitespace, for trimming cell text. -/
def isSpaceChar (c : Char) : Bool :=
  c == ' ' || c == '\t' || c == '\n' || c == '\r'

/-- Strip leading and trailing whitespace (the effect of `str.strip`
semantics pandas applies when parsing cell text). -/
def trimChars (cs : List Char) : List Char :=
  ((cs.dropWhile isSpaceChar).reverse.dropWhile isSpaceChar).reverse

/-- Split a character list at every occurrence of a separator character. -/
def splitOnSep (sep : Char) : List Char → List (List Char)
  | [] => [[]]
  | c :: t =>
    match splitOnSep sep t with
    | [] => if c == sep then [[], []] else [[c]]
    | h :: rest => if c == sep then [] :: h :: rest else (c :: h) :: rest

/-- Decimal digit value of a character. -/
def digitVal (c : Char) : Option ℕ :=
  if '0' ≤ c ∧ c ≤ '9' then some (c.toNat - '0'.toNat) else none

/-- Accumulate decimal digits; `none` on any non-digit. -/
def decDigits : List Char → ℕ → Option ℕ
  | [], acc => some acc
  | c :: t, acc =>
    match digitVal c with
    | some d => decDigits t (acc * 10 + d)
    | none => none

/-- Parse a nonempty all-digit character list to a natural number. -/
def natOfChars (cs : List Char) : Option ℕ :=
  if cs.isEmpty then none else decDigits cs 0

/-- Per-cell model of `pd.to_numeric(..., errors='coerce')`: an optional sign,
an integer part and an optional fractional part parse to a rational; anything
else coerces to NaN (`none`). -/
def parseDecimal (s : String) : Option ℚ :=
  let cs := trimChars s.data
  let neg := charListIsPref ['-'] cs
  let cs := if charListIsPref ['-'] cs || charListIsPref ['+'] cs then cs.drop 1 else cs
  match splitOnSep '.' cs with
  | [a] => (natOfChars a).map (fun n => if neg then -(n : ℚ) else (n : ℚ))
  | [a, b] =>
    match natOfChars a, natOfChars b with
    | some n, some f =>
      let v : ℚ := (n : ℚ) + (f : ℚ) / ((10 : ℚ) ^ b.length)
      some (if neg then -v else v)
    | _, _ => none
  | _ => none

/-! ## Calendar dates and `pd.to_datetime(..., errors='coerce')` -/

/-- A calendar date as carried by the pandas datetime column. -/
structure Date where
  year : ℕ
  month : ℕ
  day : ℕ
deriving DecidableEq, Repr

/-- Gregorian leap-year rule. -/
def isLeapYear (y : ℕ) : Bool :=
  y % 4 == 0 && (y % 100 != 0 || y % 400 == 0)

/-- Number of days of month `m` of year `y`. -/
def daysInMonth (y m : ℕ) : ℕ :=
  if m = 2 then (if isLeapYear y then 29 else 28)
  else if m = 4 ∨ m = 6 ∨ m = 9 ∨ m = 11 then 30
  else 31

/-- Days in year `y` strictly before month `m`. -/
def daysBeforeMonth (y m : ℕ) : ℕ :=
  (((List.range (m - 1)).map (fun k => daysInMonth y (k + 1))).sum)

/-- Rata-die day number (0001-01-01 ↦ 1), used for ordering dates and for day
differences. -/
def Date.rataDie (d : Date) : ℕ :=
  let y := d.year - 1
  365 * y + y / 4 - y / 100 + y / 400 + daysBeforeMonth d.year d.month + d.day

/-- Weekday names as produced by `Series.dt.day_name()`. -/
def dayNames : List String :=
  ["Monday", "Tuesday", "Wednesday", "Thursday", "Friday", "Saturday", "Sunday"]

/-- `dt.day_name()` for one date (0001-01-01 was a Monday). -/
def Date.dayName (d : Date) : String :=
  dayNames.getD ((d.rataDie + 6) % 7) ""

/-- `dt.to_period('M')`: the (year, month) pair. -/
def Date.periodM (d : Date) : ℕ × ℕ := (d.year, d.month)

/-- Per-cell model of `pd.to_datetime(..., errors='coerce')` on a date column:
ISO `YYYY-MM-DD` cells parse, everything else (including the `####`
placeholder corruption) coerces to NaT (`none`). -/
def parseDateChars (cs : List Char) : Option Date :=
  match splitOnSep '-' cs with
  | [ys, ms, ds] =>
    match natOfChars ys, natOfChars ms, natOfChars ds with
    | some y, some m, some d =>
      if ys.length = 4 ∧ 1 ≤ m ∧ m ≤ 12 ∧ 1 ≤ d ∧ d ≤ daysInMonth y m then
        some ⟨y, m, d⟩
      else none
    | _, _, _ => none
  | _ => none

/-- String wrapper of `parseDateChars`. -/
def parseDate (s : String) : Option Date :=
  parseDateChars (trimChars s.data)

/-- Hour of an `HH:MM:SS` character list. -/
def parseTimeHourChars (cs : List Char) : Option ℕ :=
  match splitOnSep ':' cs with
  | [hs, ms, ss] =>
    match natOfChars hs, natOfChars ms, natOfChars ss with
    | some h, some m, some sec => if h < 24 ∧ m < 60 ∧ sec < 60 then some h else none
    | _, _, _ => none
  | _ => none

/-- Model of `pd.to_datetime(col, format='%H:%M:%S').dt.hour` on one cell. -/
def parseTimeHour (s : String) : Option ℕ :=
  parseTimeHourChars (trimChars s.data)

/-- Model of `pd.to_datetime(col, errors='coerce').dt.hour` on one timestamp
cell: a bare date has hour 0, a `date time` pair takes the hour of the time
part, a bare time its own hour. -/
def parseDatetimeHour (s : String) : Option ℕ :=
  match splitOnSep ' ' (trimChars s.data) with
  | [d] => if (parseDateChars d).isSome then some 0 else parseTimeHourChars d
  | [d, tm] => if (parseDateChars d).isSome then parseTimeHourChars tm else none
  | _ => none

/-! ## Raw tables -/

/-- An uploaded CSV as pandas delivers it: named columns and rows of optional
string cells (`none` is NaN). -/
structure RawTable where
  cols : List String
  rows : List (List (Option String))
deriving DecidableEq, Repr

/-- Cell of a row under a column name: first matching column, NaN when the
row is too short. -/
def RawTable.cell (t : RawTable) (row : List (Option String)) (c : String) : Option String :=
  row.getD (t.cols.findIdx (· == c)) none

/-- Positional cell access, modelling `df.iloc[:, j]` applied to one row. -/
def cellAt (row : List (Option String)) (j : ℕ) : Option String :=
  row.getD j none

/-- The full column under a name, modelling `df[c]`. -/
def RawTable.colValues (t : RawTable) (c : String) : List (Option String) :=
  t.rows.map (fun row => t.cell row c)

/-! ## Canonical order records -/

/-- The canonical per-order row shape shared by the three normalizers:
exactly the columns assigned by `process_*_data`. -/
structure OrderRecord where
  date : Option Date
  platform : String
  revenue : Option ℚ
  subtotal : Option ℚ
  tax : Option ℚ
  tips : Option ℚ
  commission : Option ℚ
  marketingFee : Option ℚ
  isCompleted : Bool
  isCancelled : Bool
  storeName : Option String
  storeId : Option String
  orderId : Option String
  hour : Option ℕ
  dayOfWeek : Option String
  month : Option (ℕ × ℕ)
deriving DecidableEq, Repr

/-- The record validator (the line
`df = df[df['Date'].notna() & df['Revenue'].notna()]`): drop any record whose
date is NaT or whose revenue is NaN. -/
def validate (l : List OrderRecord) : List OrderRecord :=
  l.filter (fun r => r.date.isSome && r.revenue.isSome)

/-! ## DoorDash normalizer (`process_doordash_data`, lines 67-102) -/

/-- Columns `process_doordash_data` reads without an `in df.columns` guard; a
missing one raises `KeyError` inside the `try` block. -/
def ddRequired : List String :=
  ["时间戳本地日期", "净总计", "小计", "转交给商家的税款小计", "员工小费", "佣金",
   "营销费 |（包括任何适用税金）", "最终订单状态", "时间戳为本地时间"]

/-- One canonical record built from DoorDash raw row `row` at index `i`. -/
def ddRecord (t : RawTable) (i : ℕ) (row : List (Option String)) : OrderRecord :=
  { date := (t.cell row "时间戳本地日期").bind parseDate
    platform := "DoorDash"
    revenue := (t.cell row "净总计").bind parseDecimal
    subtotal := (t.cell row "小计").bind parseDecimal
    tax := (t.cell row "转交给商家的税款小计").bind parseDecimal
    tips := (t.cell row "员工小费").bind parseDecimal
    commission := (t.cell row "佣金").bind parseDecimal
    marketingFee := (t.cell row "营销费 |（包括任何适用税金）").bind parseDecimal
    isCompleted := optContainsAnyCI (t.cell row "最终订单状态") ["delivered"]
    isCancelled := optContainsAnyCI (t.cell row "最终订单状态") ["cancelled"]
    storeName := if "店铺名称" ∈ t.cols then t.cell row "店铺名称" else some "Unknown"
    storeId := if "Store ID" ∈ t.cols then t.cell row "Store ID" else some "Unknown"
    orderId := if "DoorDash 订单 ID" ∈ t.cols then t.cell row "DoorDash 订单 ID"
               else some (toString i)
    hour := (t.cell row "时间戳为本地时间").bind parseDatetimeHour
    dayOfWeek := ((t.cell row "时间戳本地日期").bind parseDate).map Date.dayName
    month := ((t.cell row "时间戳本地日期").bind parseDate).map Date.periodM }

/-- The draft DoorDash records followed by the clean-up filter of line 97. -/
def ddRecords (t : RawTable) : List OrderRecord :=
  validate ((List.range t.rows.length).map (fun i => ddRecord t i (t.rows.getD i [])))

/-- Body of the `try` block of `process_doordash_data`; it raises (errs) iff
one of the unconditionally accessed columns is missing. -/
def doordashBody (t : RawTable) : Except String (List OrderRecord) :=
  if ∀ c ∈ ddRequired, c ∈ t.cols then .ok (ddRecords t)
  else .error "KeyError"

/-- `process_doordash_data`: the `except` clause maps any raised error to an
empty frame. -/
def process_doordash_data (t : RawTable) : List OrderRecord :=
  match doordashBody t with
  | .ok l => l
  | .error _ => []

/-! ## Uber normalizer (`process_uber_data`, lines 105-186) -/

/-- The two-row-header fix (lines 109-113): when `'订单日期'` is not a column
and the table has more than one row, drop row 0, promote row 1 to the header
and keep the rows from index 2 on.  A NaN header cell becomes a name that
matches no candidate. -/
def uberEff (t : RawTable) : RawTable :=
  if "订单日期" ∈ t.cols ∨ t.rows.length ≤ 1 then t
  else { cols := (t.rows.getD 1 []).map (fun c => c.getD ""), rows := t.rows.drop 2 }

/-- Long descriptive date column name of the alternative header format. -/
def uberAltDateCol : String :=
  "订单下单时的当地日期，或已下单的原始订单退款时的当地日期"

/-- Long descriptive status column name of the alternative header format. -/
def uberAltStatusCol : String :=
  "可以是：已完成（顾客已收到餐点）、已取消（顾客或客服已取消订单）、退款（顾客订单已退款），或者未完成（订单无法完成）"

/-- Date column candidate chosen by the `if '订单日期' in df.columns` branch. -/
def uberDateCol (t : RawTable) : String :=
  if "订单日期" ∈ t.cols then "订单日期" else uberAltDateCol

/-- Status column candidate of the chosen branch. -/
def uberStatusCol (t : RawTable) : String :=
  if "订单日期" ∈ t.cols then "订单状态" else uberAltStatusCol

/-- Restaurant-name column candidate of the chosen branch. -/
def uberRestaurantCol (t : RawTable) : String :=
  if "订单日期" ∈ t.cols then "餐厅名称" else "Uber Eats 优食管理工具中显示的餐厅名称"

/-- Restaurant-id column candidate of the chosen branch. -/
def uberRestaurantIdCol (t : RawTable) : String :=
  if "订单日期" ∈ t.cols then "餐厅号" else "Uber Eats 优食管理工具中显示的外部餐厅编号"

/-- Order-number column candidate of the chosen branch. -/
def uberOrderCol (t : RawTable) : String :=
  if "订单日期" ∈ t.cols then "订单号" else "Uber Eats 优食管理工具中显示的订单编号"

/-- Order-accept-time column candidate of the chosen branch. -/
def uberAcceptCol (t : RawTable) : String :=
  if "订单日期" ∈ t.cols then "订单接受时间" else "商家接受订单时的当地时间戳"

/-- The Uber status classifier of line 158: `astype(str)` turns NaN into the
text `"nan"`, then `'已完成|completed'` is matched case-insensitively. -/
def uberStatusCompleted (s : String) : Bool :=
  strContainsAnyCI s ["已完成", "completed"]

/-- The Uber cancellation classifier of line 159 (`'已取消|cancelled'`). -/
def uberStatusCancelled (s : String) : Bool :=
  strContainsAnyCI s ["已取消", "cancelled"]

/-- Column list after the `df['Date']` and `df['Platform']` assignments that
precede the Revenue line; `df.iloc[:, -7]` counts from the end of this list. -/
def ubColsExt (t : RawTable) : List String :=
  let c1 := if "Date" ∈ t.cols then t.cols else t.cols ++ ["Date"]
  if "Platform" ∈ c1 then c1 else c1 ++ ["Platform"]

/-- One canonical record built from Uber raw row `row` at index `i` of the
(header-fixed) table; `rng` is the stream of NumPy draws behind
`np.random.choice(range(8, 22), size=len(df))`. -/
def ubRecord (t : RawTable) (rng : ℕ → ℕ) (i : ℕ) (row : List (Option String)) :
    OrderRecord :=
  let dateCell := if uberDateCol t ∈ t.cols then t.cell row (uberDateCol t)
                  else cellAt row 8
  { date := dateCell.bind parseDate
    platform := "Uber"
    revenue := (if "收入总额" ∈ t.cols then t.cell row "收入总额"
                else cellAt row ((ubColsExt t).length - 7)).bind parseDecimal
    subtotal := if "销售额（不含税费）" ∈ t.cols
                then (t.cell row "销售额（不含税费）").bind parseDecimal else some 0
    tax := if "销售额税费" ∈ t.cols
           then (t.cell row "销售额税费").bind parseDecimal else some 0
    tips := if "小费" ∈ t.cols then (t.cell row "小费").bind parseDecimal else some 0
    commission := if "平台服务费" ∈ t.cols
                  then (t.cell row "平台服务费").bind parseDecimal else some 0
    marketingFee := if "营销调整额" ∈ t.cols
                    then (t.cell row "营销调整额").bind parseDecimal else some 0
    isCompleted := if uberStatusCol t ∈ t.cols
                   then uberStatusCompleted ((t.cell row (uberStatusCol t)).getD "nan")
                   else true
    isCancelled := if uberStatusCol t ∈ t.cols
                   then uberStatusCancelled ((t.cell row (uberStatusCol t)).getD "nan")
                   else false
    storeName := if uberRestaurantCol t ∈ t.cols then t.cell row (uberRestaurantCol t)
                 else some "Unknown"
    storeId := if uberRestaurantIdCol t ∈ t.cols then t.cell row (uberRestaurantIdCol t)
               else some "Unknown"
    orderId := if uberOrderCol t ∈ t.cols then t.cell row (uberOrderCol t)
               else some (toString i)
    hour := if uberAcceptCol t ∈ t.cols
            then (t.cell row (uberAcceptCol t)).bind parseDatetimeHour
            else some (8 + rng i % 14)
    dayOfWeek := (dateCell.bind parseDate).map Date.dayName
    month := (dateCell.bind parseDate).map Date.periodM }

/-- Draft Uber records followed by the clean-up filter of line 181 (date
only; revenue is not checked). -/
def ubRecords (t : RawTable) (rng : ℕ → ℕ) : List OrderRecord :=
  ((List.range t.rows.length).map (fun i => ubRecord t rng i (t.rows.getD i []))).filter
    (fun r => r.date.isSome)

/-- Body of the `try` block of `process_uber_data` on the header-fixed table;
it raises iff a required positional fallback is out of range. -/
def uberBody (t0 : RawTable) (rng : ℕ → ℕ) : Except String (List OrderRecord) :=
  let t := uberEff t0
  if (uberDateCol t ∈ t.cols ∨ 8 < t.cols.length)
      ∧ ("收入总额" ∈ t.cols ∨ 7 ≤ (ubColsExt t).length) then .ok (ubRecords t rng)
  else .error "IndexError"

/-- `process_uber_data`: the `except` clause maps any raised error to an
empty frame. -/
def process_uber_data (t : RawTable) (rng : ℕ → ℕ) : List OrderRecord :=
  match uberBody t rng with
  | .ok l => l
  | .error _ => []

/-! ## Grubhub normalizer (`process_grubhub_data`, lines 188-228) -/

/-- Columns `process_grubhub_data` reads without a guard. -/
def ghRequired : List String :=
  ["transaction_date", "merchant_net_total", "subtotal", "subtotal_sales_tax",
   "tip", "commission", "merchant_funded_promotion", "transaction_type"]

/-- One canonical record built from Grubhub raw row `row` at index `i`. -/
def ghRecord (t : RawTable) (rng : ℕ → ℕ) (i : ℕ) (row : List (Option String)) :
    OrderRecord :=
  { date := (t.cell row "transaction_date").bind parseDate
    platform := "Grubhub"
    revenue := (t.cell row "merchant_net_total").bind parseDecimal
    subtotal := (t.cell row "subtotal").bind parseDecimal
    tax := (t.cell row "subtotal_sales_tax").bind parseDecimal
    tips := (t.cell row "tip").bind parseDecimal
    commission := (t.cell row "commission").bind parseDecimal
    marketingFee := (t.cell row "merchant_funded_promotion").bind parseDecimal
    isCompleted := optContainsAnyCI (t.cell row "transaction_type") ["prepaid", "order"]
    isCancelled := false
    storeName := if "store_name" ∈ t.cols then t.cell row "store_name" else some "Unknown"
    storeId := if "store_number" ∈ t.cols then t.cell row "store_number"
               else some "Unknown"
    orderId := if "order_number" ∈ t.cols then t.cell row "order_number"
               else some (toString i)
    hour := if "transaction_time_local" ∈ t.cols
            then (t.cell row "transaction_time_local").bind parseTimeHour
            else some (8 + rng i % 14)
    dayOfWeek := ((t.cell row "transaction_date").bind parseDate).map Date.dayName
    month := ((t.cell row "transaction_date").bind parseDate).map Date.periodM }

/-- Draft Grubhub records followed by the clean-up filter of line 223 (date
only; revenue is not checked). -/
def ghRecords (t : RawTable) (rng : ℕ → ℕ) : List OrderRecord :=
  ((List.range t.rows.length).map (fun i => ghRecord t rng i (t.rows.getD i []))).filter
    (fun r => r.date.isSome)

/-- Body of the `try` block of `process_grubhub_data`. -/
def grubhubBody (t : RawTable) (rng : ℕ → ℕ) : Except String (List OrderRecord) :=
  if ∀ c ∈ ghRequired, c ∈ t.cols then .ok (ghRecords t rng)
  else .error "KeyError"

/-- `process_grubhub_data`: the `except` clause maps any raised error to an
empty frame. -/
def process_grubhub_data (t : RawTable) (rng : ℕ → ℕ) : List OrderRecord :=
  match grubhubBody t rng with
  | .ok l => l
  | .error _ => []

/-! ## Generic grouping helpers (pandas `groupby` sorts its keys and drops
null keys; `dedupL` keeps first occurrences, `sortLe` is an insertion sort) -/

/-- Insert into a sorted list under a Bool ordering. -/
def insertLe (le : α → α → Bool) (a : α) : List α → List α
  | [] => [a]
  | b :: t => if le a b then a :: b :: t else b :: insertLe le a t

/-- Insertion sort under a Bool ordering. -/
def sortLe (le : α → α → Bool) (l : List α) : List α :=
  l.foldr (insertLe le) []

/-- Deduplication keeping first occurrences. -/
def dedupAux [BEq α] : List α → List α → List α
  | [], _ => []
  | a :: t, seen => if seen.contains a then dedupAux t seen else a :: dedupAux t (a :: seen)

/-- Deduplication keeping first occurrences. -/
def dedupL [BEq α] (l : List α) : List α := dedupAux l []

/-- Ordering used for pandas string group keys. -/
def strLe (a b : String) : Bool := decide (a ≤ b)

/-- Ordering of monthly periods (year, month). -/
def monthLe (a b : ℕ × ℕ) : Bool :=
  a.1 < b.1 || (a.1 == b.1 && a.2 ≤ b.2)

/-- Maximum of a list of dates (`Series.max()` skipping NaT; `none` on an
all-NaT/empty column). -/
def listMaxDate (l : List Date) : Option Date :=
  l.foldl (fun acc d =>
    match acc with
    | none => some d
    | some m => some (if m.rataDie < d.rataDie then d else m)) none

/-! ## Unifier and headline metrics (`main`, lines 370-426) -/

/-- `pd.concat(all_data, ignore_index=True)`: plain ordered concatenation of
the per-platform record lists, no deduplication. -/
def unify (ls : List (List OrderRecord)) : List OrderRecord := ls.flatten

/-- `df['Revenue'].sum()` (NaN values are skipped by pandas `sum`). -/
def totalRevenue (l : List OrderRecord) : ℚ := (l.filterMap (fun r => r.revenue)).sum

/-- Rows carrying a given platform tag. -/
def platformCount (l : List OrderRecord) (p : String) : ℕ :=
  (l.filter (fun r => r.platform == p)).length

/-- `MonthYear` as recomputed at line 412: `Date.dt.to_period('M')`. -/
def monthKey (r : OrderRecord) : Option (ℕ × ℕ) :=
  r.date.map Date.periodM

/-- The growth block of `main` (lines 404-426): group the completed orders by
month; with more than one monthly period the growth rates compare the last two
periods, otherwise both default to 0.  (The division is exact on ℚ; the
original divides floats, which likewise cannot raise.) -/
def growthMetrics (records : List OrderRecord) : ℚ × ℚ :=
  let completed := records.filter (fun r => r.isCompleted)
  if completed.isEmpty then (0, 0)
  else
    let months := sortLe monthLe (dedupL (completed.filterMap monthKey))
    let monthlyRevenue := months.map (fun m =>
      (((completed.filter (fun r => monthKey r == some m)).filterMap
        (fun r => r.revenue)).sum))
    let revenueGrowth :=
      if 1 < monthlyRevenue.length then
        let last := monthlyRevenue.getD (monthlyRevenue.length - 1) 0
        let prev := monthlyRevenue.getD (monthlyRevenue.length - 2) 0
        (last - prev) / prev * 100
      else 0
    let monthlyOrders := months.map (fun m =>
      (completed.filter (fun r => monthKey r == some m)).length)
    let orderGrowth :=
      if 1 < monthlyOrders.length then
        let last := (monthlyOrders.getD (monthlyOrders.length - 1) 0 : ℚ)
        let prev := (monthlyOrders.getD (monthlyOrders.length - 2) 0 : ℚ)
        (last - prev) / prev * 100
      else 0
    (revenueGrowth, orderGrowth)

/-! ## Retention metrics (`calculate_retention_metrics`, lines 230-252) -/

/-- One row of the cohort table: first-order month, platform, customers. -/
structure CohortRow where
  cohort : ℕ × ℕ
  platform : String
  customers : ℕ
deriving DecidableEq, Repr

/-- One row of the monthly-active table. -/
structure ActiveRow where
  month : ℕ × ℕ
  platform : String
  activeCustomers : ℕ
deriving DecidableEq, Repr

/-- Ordering for (cohort, platform) group keys. -/
def cohortKeyLe (a b : (ℕ × ℕ) × String) : Bool :=
  monthLe a.1 b.1 && (!(monthLe b.1 a.1) || strLe a.2 b.2)

/-- `calculate_retention_metrics`: empty input short-circuits to two empty
frames; otherwise orders are grouped per `Order_ID` (first non-null date, the
platform of the group, cohort = first-date month), cohorts are counted per
(cohort, platform), and monthly active customers are the distinct order ids
per (month, platform). -/
def calculate_retention_metrics (records : List OrderRecord) :
    List CohortRow × List ActiveRow :=
  if records.isEmpty then ([], [])
  else
    let keys := sortLe strLe (dedupL (records.filterMap (fun r => r.orderId)))
    let customerOrders := keys.map (fun k =>
      let g := records.filter (fun r => r.orderId == some k)
      (k, (g.filterMap (fun r => r.date)).head?, (g.map (fun r => r.platform)).headD ""))
    let cohorts := customerOrders.filterMap (fun co =>
      (co.2.1).map (fun d => (d.periodM, co.2.2)))
    let ckeys := sortLe cohortKeyLe (dedupL cohorts)
    let cohortData := ckeys.map (fun ck =>
      { cohort := ck.1, platform := ck.2,
        customers := (cohorts.filter (fun c => c == ck)).length : CohortRow })
    let pairs := records.filterMap (fun r =>
      r.date.map (fun d => ((d.periodM, r.platform), r.orderId)))
    let mkeys := sortLe cohortKeyLe (dedupL (pairs.map (fun p => p.1)))
    let monthlyActive := mkeys.map (fun k =>
      { month := k.1, platform := k.2,
        activeCustomers :=
          (dedupL ((pairs.filter (fun p => p.1 == k)).filterMap (fun p => p.2))).length :
        ActiveRow })
    (cohortData, monthlyActive)

/-! ## RFM scoring (`calculate_rfm_scores`, lines 254-304) -/

/-- One row of the RFM frame. -/
structure RFMRow where
  customerId : String
  recency : Option ℚ
  frequency : ℕ
  monetary : ℚ
  rScore : Option String
  fScore : Option String
  mScore : Option String
  rfmScore : String
  segment : String
deriving DecidableEq, Repr

/-- Linear-interpolation quantile of a sorted nonempty list, as used by
pandas to place the `qcut` bin edges. -/
def quantileSorted (l : List ℚ) (p : ℚ) : ℚ :=
  let n := l.length
  let pos := p * ((n : ℚ) - 1)
  let i := (⌊pos⌋).toNat
  let frac := pos - (i : ℚ)
  let a := l.getD i 0
  let b := l.getD (min (i + 1) (n - 1)) 0
  a + frac * (b - a)

/-- Bin index of a value between quartile edges (right-closed bins, lowest
edge included). -/
def quartileBin (edges : List ℚ) (v : ℚ) : ℕ :=
  if v ≤ edges.getD 1 0 then 0
  else if v ≤ edges.getD 2 0 then 1
  else if v ≤ edges.getD 3 0 then 2
  else 3

/-- `pd.qcut(values, q=4, labels=...)`: quartile edges are interpolated over
the non-null values; duplicated edges raise `ValueError` (the source calls
`qcut` without `duplicates='drop'`); otherwise each non-null value is labelled
by its bin and nulls stay null. -/
def qcut (values : List (Option ℚ)) (labels : List String) :
    Except String (List (Option String)) :=
  let vals := values.filterMap id
  if vals.isEmpty then .error "ValueError: cannot cut empty values"
  else
    let sorted := sortLe (fun a b => decide (a ≤ b)) vals
    let edges := [quantileSorted sorted 0, quantileSorted sorted (1/4),
                  quantileSorted sorted (1/2), quantileSorted sorted (3/4),
                  quantileSorted sorted 1]
    if (edges.zip edges.tail).any (fun p => p.1 == p.2) then
      .error "ValueError: Bin edges must be unique"
    else
      .ok (values.map (fun v? => v?.map (fun v => labels.getD (quartileBin edges v) "nan")))

/-- `rank(method='first')`: 1-based rank with ties broken by position. -/
def rankFirst (l : List ℚ) : List ℚ :=
  (List.range l.length).map (fun i =>
    let v := l.getD i 0
    1 + (((List.range l.length).filter (fun j =>
      let w := l.getD j 0
      decide (w < v) || (w == v && decide (j < i)))).length : ℚ))

/-- The fixed segment lookup table of `segment_customers` (lines 278-300). -/
def segmentOf (code : String) : String :=
  if code ∈ ["444", "443", "434", "344"] then "Champions"
  else if code ∈ ["442", "441", "432", "431", "342", "341"] then "Loyal Customers"
  else if code ∈ ["433", "423", "424", "333", "334"] then "Potential Loyalists"
  else if code ∈ ["411", "412", "421", "311"] then "New Customers"
  else if code ∈ ["331", "321", "312", "322"] then "Promising"
  else if code ∈ ["332", "323", "324", "314"] then "Need Attention"
  else if code ∈ ["144", "143", "134", "133", "234", "233"] then "About to Sleep"
  else if code ∈ ["244", "243", "242", "241"] then "At Risk"
  else if code ∈ ["124", "123", "122", "121", "224", "223"] then "Cannot Lose Them"
  else if code ∈ ["114", "113", "112", "111"] then "Hibernating"
  else "Other"

/-- `calculate_rfm_scores`: empty input short-circuits to an empty frame;
otherwise, per `Order_ID` group, Recency = days between the dataset's max
date and the group's max date, Frequency / Monetary = count / sum of the
non-null revenues, each bucketed by `qcut` (whose `ValueError` propagates to
the caller, hence the `Except`); a null categorical prints as `"nan"` under
`astype(str)` when the score string is assembled. -/
def calculate_rfm_scores (records : List OrderRecord) : Except String (List RFMRow) :=
  if records.isEmpty then .ok []
  else
    let currentDate := listMaxDate (records.filterMap (fun r => r.date))
    let keys := sortLe strLe (dedupL (records.filterMap (fun r => r.orderId)))
    let groups := keys.map (fun k => records.filter (fun r => r.orderId == some k))
    let recency : List (Option ℚ) := groups.map (fun g =>
      currentDate.bind (fun c => (listMaxDate (g.filterMap (fun r => r.date))).map
        (fun m => ((c.rataDie : ℚ) - (m.rataDie : ℚ)))))
    let freq : List ℕ := groups.map (fun g => (g.filterMap (fun r => r.revenue)).length)
    let mon : List ℚ := groups.map (fun g => (g.filterMap (fun r => r.revenue)).sum)
    match qcut recency ["4", "3", "2", "1"] with
    | .error e => .error e
    | .ok rS =>
      match qcut ((rankFirst (freq.map (fun n => (n : ℚ)))).map some) ["1", "2", "3", "4"] with
      | .error e => .error e
      | .ok fS =>
        match qcut (mon.map some) ["1", "2", "3", "4"] with
        | .error e => .error e
        | .ok mS =>
          .ok ((List.range keys.length).map (fun i =>
            let r := rS.getD i none
            let f := fS.getD i none
            let m := mS.getD i none
            let code := (r.getD "nan") ++ (f.getD "nan") ++ (m.getD "nan")
            { customerId := keys.getD i "", recency := recency.getD i none,
              frequency := freq.getD i 0, monetary := mon.getD i 0,
              rScore := r, fScore := f, mScore := m, rfmScore := code,
              segment := segmentOf code }))

/-! ## Corruption Repair Unit (spec-modelled)

The repaired Grubhub normalizer lives in `improved_luckin_analytics_fixed`,
which `validate_fixes.py` imports and exercises ("Date corruption fix
applied") but which is not part of the sources here; `test_dashboard.py`
(lines 77-80) inlines the same fallback: a deterministic hourly calendar
starting 2025-10-01.  The repair unit below is therefore modelled from the
spec (§4.3) rather than translated. -/

/-- A repaired timestamp: date plus hour of day. -/
def Timestamp : Type := Date × ℕ
deriving instance DecidableEq, Repr for Timestamp

/-- A cell filled by a run of one repeated symbol (the `####` corruption
marker checked by `validate_fixes.py`). -/
def isPlaceholderCell (s : String) : Bool :=
  match s.data with
  | [] => false
  | c :: rest => rest.all (fun c2 => c2 == c)

/-- A date column entirely filled with the placeholder pattern. -/
def isPlaceholderColumn (col : List (Option String)) : Bool :=
  !col.isEmpty && col.all (fun c =>
    match c with
    | some s => isPlaceholderCell s
    | none => false)

/-- The Type Coercer reports total date-parse failure for the column. -/
def totalDateParseFailure (col : List (Option String)) : Bool :=
  (col.filterMap (fun c => c.bind parseDate)).isEmpty

/-- Modelled from the spec: the repair trigger of §4.3 — total coercion
failure, or the placeholder pattern detected in the raw text. -/
def repairTrigger (col : List (Option String)) : Bool :=
  totalDateParseFailure col || isPlaceholderColumn col

/-- Modelled from the spec: the deterministic synthetic calendar — hourly
ticks from the canonical reference period October 2025 (the fallback period
used by `test_dashboard.py`), cycling through the 31 calendar days. -/
def syntheticTimestamp (i : ℕ) : Timestamp :=
  (⟨2025, 10, 1 + (i / 24) % 31⟩, i % 24)

/-- Modelled from the spec: `repairDates(rawColumn, rowCount)` of the
Corruption Repair Unit (§4.3), absent from the sources here.  On trigger it
returns the synthetic sequence with `repaired = true`; otherwise the parsed
column (at midnight) with `repaired = false`. -/
def repairDates (col : List (Option String)) (rowCount : ℕ) :
    List (Option Timestamp) × Bool :=
  if repairTrigger col then
    ((List.range rowCount).map (fun i => some (syntheticTimestamp i)), true)
  else
    (col.map (fun c => (c.bind parseDate).map (fun d => ((d, 0) : Timestamp))), false)

/-- Canonical record shape of the repaired normalizer, surfacing the
`wasDateRepaired` flag required by the spec. -/
structure RepairedRecord where
  date : Option Date
  platform : String
  revenue : Option ℚ
  hour : Option ℕ
  dayOfWeek : Option String
  wasDateRepaired : Bool
deriving DecidableEq, Repr

/-- Modelled from the spec: `process_grubhub_data` of
`improved_luckin_analytics_fixed` (the "date corruption fix" variant tested
by `validate_fixes.py`, not among the sources here): required fields are the
date and revenue columns (§4.4 — missing required fields yield an empty
list), dates flow through `repairDates`, records carry `wasDateRepaired`,
and the validator filter drops records with no usable date. -/
def process_grubhub_data_fixed (t : RawTable) : List RepairedRecord :=
  if "transaction_date" ∈ t.cols ∧ "merchant_net_total" ∈ t.cols then
    let dateCol := t.colValues "transaction_date"
    let repaired := repairDates dateCol t.rows.length
    (((List.range t.rows.length).map (fun i =>
      let row := t.rows.getD i []
      let tsi := (repaired.1).getD i none
      { date := tsi.map (fun ts => ts.1)
        platform := "Grubhub"
        revenue := (t.cell row "merchant_net_total").bind parseDecimal
        hour := tsi.map (fun ts => ts.2)
        dayOfWeek := (tsi.map (fun ts => ts.1)).map Date.dayName
        wasDateRepaired := repaired.2 : RepairedRecord })).filter
      (fun r => r.date.isSome))
  else []

/-! ## Concrete sample inputs (fixtures for witnesses and counterexamples) -/

/-- A constant RNG stream (draw 0 at every step). -/
def rngZero : ℕ → ℕ := fun _ => 0

/-- A constant RNG stream (draw 1 at every step). -/
def rngOne : ℕ → ℕ := fun _ => 1

/-- A DoorDash export with two fully valid rows. -/
def sampleDoordashTable : RawTable :=
  { cols := ["时间戳本地日期", "净总计", "小计", "转交给商家的税款小计", "员工小费", "佣金",
             "营销费 |（包括任何适用税金）", "最终订单状态", "时间戳为本地时间"],
    rows := [
      [some "2024-01-15", some "25", some "20", some "2", some "3", some "4", some "1",
       some "Delivered", some "2024-01-15 10:30:00"],
      [some "2024-01-16", some "30", some "24", some "2", some "3", some "5", some "1",
       some "Delivered", some "2024-01-16 11:00:00"]] }

/-- An Uber export (plain header format) with two fully valid rows. -/
def sampleUberTable : RawTable :=
  { cols := ["订单日期", "收入总额", "订单状态", "订单接受时间"],
    rows := [
      [some "2024-02-05", some "12", some "已完成", some "2024-02-05 09:15:00"],
      [some "2024-02-06", some "18", some "已完成", some "2024-02-06 12:00:00"]] }

/-- A Grubhub export with two fully valid rows. -/
def sampleGrubhubTable : RawTable :=
  { cols := ["transaction_date", "merchant_net_total", "subtotal", "subtotal_sales_tax",
             "tip", "commission", "merchant_funded_promotion", "transaction_type",
             "transaction_time_local"],
    rows := [
      [some "2024-03-01", some "7", some "6", some "0", some "0", some "0", some "0",
       some "Prepaid Order", some "08:30:00"],
      [some "2024-03-02", some "8", some "7", some "0", some "0", some "0", some "0",
       some "Prepaid Order", some "13:45:00"]] }

/-- An Uber export whose single row has a valid date but an unparseable
revenue cell. -/
def uberNullRevenueTable : RawTable :=
  { cols := ["订单日期", "收入总额"], rows := [[some "2024-01-15", some "abc"]] }

/-- An Uber export with no order-accept-time column (and no status column),
forcing the RNG-based `Hour` fallback. -/
def hourFallbackTable : RawTable :=
  { cols := ["订单日期", "收入总额"], rows := [[some "2024-01-15", some "10"]] }

/-- A one-row Uber export whose status cell carries the given text. -/
def uberStatusRowTable (s : String) : RawTable :=
  { cols := ["订单日期", "收入总额", "订单状态"],
    rows := [[some "2024-01-15", some "12", some s]] }

/-- A one-row DoorDash export whose status cell carries the given text. -/
def ddStatusRowTable (s : String) : RawTable :=
  { cols := ["时间戳本地日期", "净总计", "小计", "转交给商家的税款小计", "员工小费", "佣金",
             "营销费 |（包括任何适用税金）", "最终订单状态", "时间戳为本地时间"],
    rows := [[some "2024-01-15", some "25", some "20", some "2", some "3", some "4",
              some "1", some s, some "2024-01-15 10:30:00"]] }

/-- A Grubhub export whose date column is 100% placeholder-corrupted. -/
def placeholderGrubhubTable : RawTable :=
  { cols := ["transaction_date", "merchant_net_total"],
    rows := [[some "####", some "5"], [some "####", some "6"]] }

/-- The raw table with no columns and no rows. -/
def emptyTable : RawTable := { cols := [], rows := [] }

/-- Two already-canonical records sharing one order id (one grouping key). -/
def sampleRecords : List OrderRecord :=
  [{ date := some ⟨2024, 1, 15⟩, platform := "Uber", revenue := some 10,
     subtotal := some 0, tax := some 0, tips := some 0, commission := some 0,
     marketingFee := some 0, isCompleted := true, isCancelled := false,
     storeName := some "S", storeId := some "1", orderId := some "A",
     hour := some 9, dayOfWeek := some "Monday", month := some (2024, 1) },
   { date := some ⟨2024, 1, 16⟩, platform := "Uber", revenue := some 20,
     subtotal := some 0, tax := some 0, tips := some 0, commission := some 0,
     marketingFee := some 0, isCompleted := true, isCancelled := false,
     storeName := some "S", storeId := some "1", orderId := some "A",
     hour := some 9, dayOfWeek := some "Tuesday", month := some (2024, 1) }]

/-- Normalized output of `sampleDoordashTable`, first record. -/
def sampleD1 : OrderRecord :=
  { date := some ⟨2024, 1, 15⟩, platform := "DoorDash", revenue := some 25,
    subtotal := some 20, tax := some 2, tips := some 3, commission := some 4,
    marketingFee := some 1, isCompleted := true, isCancelled := false,
    storeName := some "Unknown", storeId := some "Unknown", orderId := some "0",
    hour := some 10, dayOfWeek := some "Monday", month := some (2024, 1) }

/-- Normalized output of `sampleDoordashTable`, second record. -/
def sampleD2 : OrderRecord :=
  { date := some ⟨2024, 1, 16⟩, platform := "DoorDash", revenue := some 30,
    subtotal := some 24, tax := some 2, tips := some 3, commission := some 5,
    marketingFee := some 1, isCompleted := true, isCancelled := false,
    storeName := some "Unknown", storeId := some "Unknown", orderId := some "1",
    hour := some 11, dayOfWeek := some "Tuesday", month := some (2024, 1) }

/-- Normalized output of `sampleUberTable`, first record. -/
def sampleU1 : OrderRecord :=
  { date := some ⟨2024, 2, 5⟩, platform := "Uber", revenue := some 12,
    subtotal := some 0, tax := some 0, tips := some 0, commission := some 0,
    marketingFee := some 0, isCompleted := true, isCancelled := false,
    storeName := some "Unknown", storeId := some "Unknown", orderId := some "0",
    hour := some 9, dayOfWeek := some "Monday", month := some (2024, 2) }

/-- Normalized output of `sampleUberTable`, second record. -/
def sampleU2 : OrderRecord :=
  { date := some ⟨2024, 2, 6⟩, platform := "Uber", revenue := some 18,
    subtotal := some 0, tax := some 0, tips := some 0, commission := some 0,
    marketingFee := some 0, isCompleted := true, isCancelled := false,
    storeName := some "Unknown", storeId := some "Unknown", orderId := some "1",
    hour := some 12, dayOfWeek := some "Tuesday", month := some (2024, 2) }

/-- Normalized output of `sampleGrubhubTable`, first record. -/
def sampleG1 : OrderRecord :=
  { date := some ⟨2024, 3, 1⟩, platform := "Grubhub", revenue := some 7,
    subtotal := some 6, tax := some 0, tips := some 0, commission := some 0,
    marketingFee := some 0, isCompleted := true, isCancelled := false,
    storeName := some "Unknown", storeId := some "Unknown", orderId := some "0",
    hour := some 8, dayOfWeek := some "Friday", month := some (2024, 3) }

/-- Normalized output of `sampleGrubhubTable`, second record. -/
def sampleG2 : OrderRecord :=
  { date := some ⟨2024, 3, 2⟩, platform := "Grubhub", revenue := some 8,
    subtotal := some 7, tax := some 0, tips := some 0, commission := some 0,
    marketingFee := some 0, isCompleted := true, isCancelled := false,
    storeName := some "Unknown", storeId := some "Unknown", orderId := some "1",
    hour := some 13, dayOfWeek := some "Saturday", month := some (2024, 3) }

/-! ## Helper lemmas -/

theorem length_insertLe (le : α → α → Bool) (a : α) (l : List α) :
    (insertLe le a l).length = l.length + 1 := by
  induction l with
  | nil => rfl
  | cons b t ih =>
    unfold insertLe
    by_cases h : le a b = true
    · simp [h]
    · simp [h, ih]

theorem length_sortLe (le : α → α → Bool) (l : List α) :
    (sortLe le l).length = l.length := by
  induction l with
  | nil => rfl
  | cons a t ih =>
    show (insertLe le a (sortLe le t)).length = t.length + 1
    rw [length_insertLe, ih]

theorem dedupAux_of_seen [BEq α] (l seen : List α)
    (h : ∀ x ∈ l, seen.contains x = true) : dedupAux l seen = [] := by
  induction l with
  | nil => rfl
  | cons a t ih =>
    unfold dedupAux
    rw [if_pos (h a (by simp))]
    exact ih (fun x hx => h x (by simp [hx]))

theorem dedupL_all_eq [BEq α] [LawfulBEq α] (l : List α) (k : α)
    (hne : l ≠ []) (h : ∀ x ∈ l, x = k) : dedupL l = [k] := by
  cases l with
  | nil => exact absurd rfl hne
  | cons a t =>
    have ha : a = k := h a (by simp)
    unfold dedupL dedupAux
    rw [if_neg (by simp)]
    rw [ha]
    have ht : dedupAux t [k] = [] := by
      apply dedupAux_of_seen
      intro x hx
      rw [h x (by simp [hx])]
      simp
    rw [ht]

theorem filterMap_orderId_const (l : List OrderRecord) (k : String)
    (h : ∀ r ∈ l, r.orderId = some k) :
    l.filterMap (fun r => r.orderId) = l.map (fun _ => k) := by
  induction l with
  | nil => rfl
  | cons a t ih =>
    rw [List.filterMap_cons, h a (by simp), List.map_cons]
    rw [ih (fun r hr => h r (by simp [hr]))]

theorem listMaxDate_isSome (l : List Date) (h : l ≠ []) :
    (listMaxDate l).isSome = true := by
  have aux : ∀ (m : Date) (t : List Date),
      (t.foldl (fun acc d =>
        match acc with
        | none => some d
        | some m' => some (if m'.rataDie < d.rataDie then d else m')) (some m)).isSome
        = true := by
    intro m t
    induction t generalizing m with
    | nil => rfl
    | cons b t' ih => exact ih _
  cases l with
  | nil => exact absurd rfl h
  | cons a t => exact aux a t

theorem mem_process_doordash {t : RawTable} {r : OrderRecord}
    (h : r ∈ process_doordash_data t) : r ∈ ddRecords t := by
  unfold process_doordash_data doordashBody at h
  by_cases hc : ∀ c ∈ ddRequired, c ∈ t.cols
  · rw [if_pos hc] at h
    exact h
  · rw [if_neg hc] at h
    simp at h

theorem mem_process_uber {t : RawTable} {rng : ℕ → ℕ} {r : OrderRecord}
    (h : r ∈ process_uber_data t rng) : r ∈ ubRecords (uberEff t) rng := by
  unfold process_uber_data uberBody at h
  by_cases hc : (uberDateCol (uberEff t) ∈ (uberEff t).cols ∨ 8 < (uberEff t).cols.length)
      ∧ ("收入总额" ∈ (uberEff t).cols ∨ 7 ≤ (ubColsExt (uberEff t)).length)
  · rw [if_pos hc] at h
    exact h
  · rw [if_neg hc] at h
    simp at h

theorem mem_process_grubhub {t : RawTable} {rng : ℕ → ℕ} {r : OrderRecord}
    (h : r ∈ process_grubhub_data t rng) : r ∈ ghRecords t rng := by
  unfold process_grubhub_data grubhubBody at h
  by_cases hc : ∀ c ∈ ghRequired, c ∈ t.cols
  · rw [if_pos hc] at h
    exact h
  · rw [if_neg hc] at h
    simp at h

theorem platform_of_mem_doordash {t : RawTable} {r : OrderRecord}
    (h : r ∈ process_doordash_data t) : r.platform = "DoorDash" := by
  have h2 := mem_process_doordash h
  unfold ddRecords validate at h2
  rw [List.mem_filter] at h2
  obtain ⟨h3, _⟩ := h2
  rw [List.mem_map] at h3
  obtain ⟨i, _, rfl⟩ := h3
  rfl

theorem platform_of_mem_uber {t : RawTable} {rng : ℕ → ℕ} {r : OrderRecord}
    (h : r ∈ process_uber_data t rng) : r.platform = "Uber" := by
  have h2 := mem_process_uber h
  unfold ubRecords at h2
  rw [List.mem_filter] at h2
  obtain ⟨h3, _⟩ := h2
  rw [List.mem_map] at h3
  obtain ⟨i, _, rfl⟩ := h3
  rfl

theorem platform_of_mem_grubhub {t : RawTable} {rng : ℕ → ℕ} {r : OrderRecord}
    (h : r ∈ process_grubhub_data t rng) : r.platform = "Grubhub" := by
  have h2 := mem_process_grubhub h
  unfold ghRecords at h2
  rw [List.mem_filter] at h2
  obtain ⟨h3, _⟩ := h2
  rw [List.mem_map] at h3
  obtain ⟨i, _, rfl⟩ := h3
  rfl

/-! ## Claim theorems -/

/-- Claim C9: validation is idempotent — `validate (validate x) = validate x`
for every record list, and an already-valid list is returned unchanged. -/
theorem claim_C9 (x : List OrderRecord) :
    validate (validate x) = validate x
    ∧ ((∀ r ∈ x, r.date.isSome = true ∧ r.revenue.isSome = true) → validate x = x) := by
  constructor
  · unfold validate
    rw [List.filter_filter]
    simp
  · intro h
    unfold validate
    rw [List.filter_eq_self]
    intro r hr
    obtain ⟨h1, h2⟩ := h r hr
    rw [h1, h2]
    rfl

/-- Witness for C9 at a concrete already-valid list. -/
theorem claim_C9_witness :
    validate (validate sampleRecords) = validate sampleRecords
    ∧ validate sampleRecords = sampleRecords :=
  ⟨(claim_C9 sampleRecords).1, (claim_C9 sampleRecords).2 (by decide)⟩

/-- Claim C10: on the empty unified dataset, `calculate_rfm_scores` returns
an empty frame and `calculate_retention_metrics` a pair of empty frames,
with no error. -/
theorem claim_C10 :
    calculate_rfm_scores [] = Except.ok []
    ∧ calculate_retention_metrics [] = ([], []) :=
  ⟨rfl, rfl⟩

/-- Claim C5: when the completed orders span at most one monthly period, the
growth block returns revenue growth 0 and order growth 0 (the computation is
total — no error path exists). -/
theorem claim_C5 (records : List OrderRecord)
    (h : (dedupL ((records.filter (fun r => r.isCompleted)).filterMap monthKey)).length ≤ 1) :
    growthMetrics records = (0, 0) := by
  simp only [growthMetrics]
  by_cases he : (records.filter (fun r => r.isCompleted)).isEmpty = true
  · rw [if_pos he]
  · rw [if_neg he]
    have hlen : (sortLe monthLe
        (dedupL ((records.filter (fun r => r.isCompleted)).filterMap monthKey))).length ≤ 1 := by
      rw [length_sortLe]
      exact h
    rw [if_neg (by rw [List.length_map]; omega), if_neg (by rw [List.length_map]; omega)]

/-- Witness for C5 at a concrete one-month dataset. -/
theorem claim_C5_witness : growthMetrics sampleRecords = (0, 0) :=
  claim_C5 sampleRecords (by decide)

/-- Counterexample to claim C1 as stated: an Uber row whose revenue cell is
unparseable survives normalization (its date is present) with a null
revenue, because `process_uber_data` filters on the date only. -/
theorem claim_C1_cex :
    (process_uber_data uberNullRevenueTable rngZero).map
      (fun r => (r.date.isSome, r.revenue)) = [(true, (none : Option ℚ))] := by
  decide

/-- Claim C1 (amended): every surviving DoorDash record has a non-null date
and a non-null revenue; surviving Uber and Grubhub records are only
guaranteed a non-null date (their revenue may be null). -/
theorem claim_C1_amended (t : RawTable) (rng : ℕ → ℕ) :
    (∀ r ∈ process_doordash_data t, r.date.isSome = true ∧ r.revenue.isSome = true)
    ∧ (∀ r ∈ process_uber_data t rng, r.date.isSome = true)
    ∧ (∀ r ∈ process_grubhub_data t rng, r.date.isSome = true) := by
  refine ⟨?_, ?_, ?_⟩
  · intro r hr
    have h2 := mem_process_doordash hr
    unfold ddRecords validate at h2
    rw [List.mem_filter] at h2
    obtain ⟨-, hp⟩ := h2
    simp at hp
    exact hp
  · intro r hr
    have h2 := mem_process_uber hr
    unfold ubRecords at h2
    rw [List.mem_filter] at h2
    exact h2.2
  · intro r hr
    have h2 := mem_process_grubhub hr
    unfold ghRecords at h2
    rw [List.mem_filter] at h2
    exact h2.2

/-- Witness for the amended C1 at a concrete surviving record. -/
theorem claim_C1_witness :
    sampleD1.date.isSome = true ∧ sampleD1.revenue.isSome = true :=
  (claim_C1_amended sampleDoordashTable rngZero).1 sampleD1 (by
    have h : process_doordash_data sampleDoordashTable = [sampleD1, sampleD2] := by decide
    rw [h]
    simp)

/-- Claim C2: the platform normalizers are total — a table with no rows
yields the empty record list, and every raised error inside a normalizer body
(missing required columns, out-of-range positional fallbacks) is caught and
mapped to the empty record list, never propagated to the caller. -/
theorem claim_C2 (t : RawTable) (rng : ℕ → ℕ) :
    (t.rows = [] → process_doordash_data t = [] ∧ process_uber_data t rng = []
      ∧ process_grubhub_data t rng = [])
    ∧ (∀ e, doordashBody t = Except.error e → process_doordash_data t = [])
    ∧ (∀ e, uberBody t rng = Except.error e → process_uber_data t rng = [])
    ∧ (∀ e, grubhubBody t rng = Except.error e → process_grubhub_data t rng = []) := by
  refine ⟨?_, ?_, ?_, ?_⟩
  · intro he
    refine ⟨?_, ?_, ?_⟩
    · unfold process_doordash_data doordashBody
      by_cases hc : ∀ c ∈ ddRequired, c ∈ t.cols
      · rw [if_pos hc]
        show ddRecords t = []
        unfold ddRecords validate
        rw [he]
        rfl
      · rw [if_neg hc]
    · have heff : uberEff t = t := by
        unfold uberEff
        rw [if_pos (Or.inr (by rw [he]; simp))]
      unfold process_uber_data uberBody
      simp only [heff]
      by_cases hc : (uberDateCol t ∈ t.cols ∨ 8 < t.cols.length)
          ∧ ("收入总额" ∈ t.cols ∨ 7 ≤ (ubColsExt t).length)
      · rw [if_pos hc]
        show ubRecords t rng = []
        unfold ubRecords
        rw [he]
        rfl
      · rw [if_neg hc]
    · unfold process_grubhub_data grubhubBody
      by_cases hc : ∀ c ∈ ghRequired, c ∈ t.cols
      · rw [if_pos hc]
        show ghRecords t rng = []
        unfold ghRecords
        rw [he]
        rfl
      · rw [if_neg hc]
  · intro e h
    unfold process_doordash_data
    rw [h]
  · intro e h
    unfold process_uber_data
    rw [h]
  · intro e h
    unfold process_grubhub_data
    rw [h]

/-- Witness for C2: the normalizers on the empty table, and the DoorDash
normalizer on a table that raises `KeyError` (all columns missing). -/
theorem claim_C2_witness :
    (process_doordash_data emptyTable = [] ∧ process_uber_data emptyTable rngZero = []
      ∧ process_grubhub_data emptyTable rngZero = [])
    ∧ process_doordash_data placeholderGrubhubTable = [] :=
  ⟨(claim_C2 emptyTable rngZero).1 rfl,
   (claim_C2 placeholderGrubhubTable rngZero).2.1 "KeyError" rfl⟩

/-- Claim C6: when each platform table normalizes to exactly two records, the
unified dataset is their ordered concatenation with no cross-platform
deduplication — six rows, per-platform counts of two, and total revenue equal
to the exact sum of the six revenue values. -/
theorem claim_C6 (tD tU tG : RawTable) (rU rG : ℕ → ℕ)
    (d1 d2 u1 u2 g1 g2 : OrderRecord) (v1 v2 v3 v4 v5 v6 : ℚ)
    (hD : process_doordash_data tD = [d1, d2])
    (hU : process_uber_data tU rU = [u1, u2])
    (hG : process_grubhub_data tG rG = [g1, g2])
    (h1 : d1.revenue = some v1) (h2 : d2.revenue = some v2)
    (h3 : u1.revenue = some v3) (h4 : u2.revenue = some v4)
    (h5 : g1.revenue = some v5) (h6 : g2.revenue = some v6) :
    unify [process_doordash_data tD, process_uber_data tU rU, process_grubhub_data tG rG]
        = [d1, d2, u1, u2, g1, g2]
    ∧ (unify [process_doordash_data tD, process_uber_data tU rU,
        process_grubhub_data tG rG]).length = 6
    ∧ platformCount (unify [process_doordash_data tD, process_uber_data tU rU,
        process_grubhub_data tG rG]) "DoorDash" = 2
    ∧ platformCount (unify [process_doordash_data tD, process_uber_data tU rU,
        process_grubhub_data tG rG]) "Uber" = 2
    ∧ platformCount (unify [process_doordash_data tD, process_uber_data tU rU,
        process_grubhub_data tG rG]) "Grubhub" = 2
    ∧ totalRevenue (unify [process_doordash_data tD, process_uber_data tU rU,
        process_grubhub_data tG rG]) = v1 + v2 + v3 + v4 + v5 + v6 := by
  have pd1 : d1.platform = "DoorDash" :=
    @platform_of_mem_doordash tD d1 (by rw [hD]; simp)
  have pd2 : d2.platform = "DoorDash" :=
    @platform_of_mem_doordash tD d2 (by rw [hD]; simp)
  have pu1 : u1.platform = "Uber" :=
    @platform_of_mem_uber tU rU u1 (by rw [hU]; simp)
  have pu2 : u2.platform = "Uber" :=
    @platform_of_mem_uber tU rU u2 (by rw [hU]; simp)
  have pg1 : g1.platform = "Grubhub" :=
    @platform_of_mem_grubhub tG rG g1 (by rw [hG]; simp)
  have pg2 : g2.platform = "Grubhub" :=
    @platform_of_mem_grubhub tG rG g2 (by rw [hG]; simp)
  have hu : unify [process_doordash_data tD, process_uber_data tU rU,
      process_grubhub_data tG rG] = [d1, d2, u1, u2, g1, g2] := by
    rw [hD, hU, hG]
    rfl
  refine ⟨hu, ?_, ?_, ?_, ?_, ?_⟩
  · rw [hu]
    rfl
  · rw [hu]
    simp [platformCount, pd1, pd2, pu1, pu2, pg1, pg2]
  · rw [hu]
    simp [platformCount, pd1, pd2, pu1, pu2, pg1, pg2]
  · rw [hu]
    simp [platformCount, pd1, pd2, pu1, pu2, pg1, pg2]
  · rw [hu]
    simp [totalRevenue, h1, h2, h3, h4, h5, h6]
    ring

/-- Witness for C6 at three concrete two-row platform tables. -/
theorem claim_C6_witness :
    unify [process_doordash_data sampleDoordashTable,
        process_uber_data sampleUberTable rngZero,
        process_grubhub_data sampleGrubhubTable rngZero]
        = [sampleD1, sampleD2, sampleU1, sampleU2, sampleG1, sampleG2]
    ∧ (unify [process_doordash_data sampleDoordashTable,
        process_uber_data sampleUberTable rngZero,
        process_grubhub_data sampleGrubhubTable rngZero]).length = 6
    ∧ platformCount (unify [process_doordash_data sampleDoordashTable,
        process_uber_data sampleUberTable rngZero,
        process_grubhub_data sampleGrubhubTable rngZero]) "DoorDash" = 2
    ∧ platformCount (unify [process_doordash_data sampleDoordashTable,
        process_uber_data sampleUberTable rngZero,
        process_grubhub_data sampleGrubhubTable rngZero]) "Uber" = 2
    ∧ platformCount (unify [process_doordash_data sampleDoordashTable,
        process_uber_data sampleUberTable rngZero,
        process_grubhub_data sampleGrubhubTable rngZero]) "Grubhub" = 2
    ∧ totalRevenue (unify [process_doordash_data sampleDoordashTable,
        process_uber_data sampleUberTable rngZero,
        process_grubhub_data sampleGrubhubTable rngZero])
        = 25 + 30 + 12 + 18 + 7 + 8 :=
  claim_C6 sampleDoordashTable sampleUberTable sampleGrubhubTable rngZero rngZero
    sampleD1 sampleD2 sampleU1 sampleU2 sampleG1 sampleG2 25 30 12 18 7 8
    (by decide) (by decide) (by decide) rfl rfl rfl rfl rfl rfl

/-- Counterexample to claim C8 as stated: on an Uber table with no
order-accept-time column, two runs differing only in the hidden NumPy RNG
state produce different `Hour` values. -/
theorem claim_C8_cex :
    process_uber_data hourFallbackTable rngZero
      ≠ process_uber_data hourFallbackTable rngOne := by
  decide

/-- Claim C8 (amended): normalization is a function of the input table alone
whenever the platform's time column is present — the RNG stream only enters
through the fabricated `Hour` fallback of a missing time column (DoorDash
takes no RNG input at all, so it is deterministic by construction). -/
theorem claim_C8_amended :
    (∀ (t : RawTable) (r1 r2 : ℕ → ℕ), uberAcceptCol (uberEff t) ∈ (uberEff t).cols →
      process_uber_data t r1 = process_uber_data t r2)
    ∧ (∀ (t : RawTable) (r1 r2 : ℕ → ℕ), "transaction_time_local" ∈ t.cols →
      process_grubhub_data t r1 = process_grubhub_data t r2) := by
  constructor
  · intro t r1 r2 h
    have hrec : ubRecords (uberEff t) r1 = ubRecords (uberEff t) r2 := by
      unfold ubRecords
      congr 1
      apply List.map_congr_left
      intro i _
      unfold ubRecord
      simp [h]
    have hb : uberBody t r1 = uberBody t r2 := by
      simp only [uberBody]
      rw [hrec]
    unfold process_uber_data
    rw [hb]
  · intro t r1 r2 h
    have hrec : ghRecords t r1 = ghRecords t r2 := by
      unfold ghRecords
      congr 1
      apply List.map_congr_left
      intro i _
      unfold ghRecord
      simp [h]
    have hb : grubhubBody t r1 = grubhubBody t r2 := by
      simp only [grubhubBody]
      rw [hrec]
    unfold process_grubhub_data
    rw [hb]

/-- Witness for the amended C8 at concrete tables carrying time columns. -/
theorem claim_C8_witness :
    process_uber_data sampleUberTable rngZero = process_uber_data sampleUberTable rngOne
    ∧ process_grubhub_data sampleGrubhubTable rngZero
        = process_grubhub_data sampleGrubhubTable rngOne :=
  ⟨claim_C8_amended.1 sampleUberTable rngZero rngOne (by decide),
   claim_C8_amended.2 sampleGrubhubTable rngZero rngOne (by decide)⟩

/-- Counterexample to claim C7 as stated: the Uber status text `退款`
(refund) matches neither the completed nor the cancelled vocabulary, and the
resulting record has `isCompleted = false` — not the claimed default of
`true`. -/
theorem claim_C7_cex :
    (process_uber_data (uberStatusRowTable "退款") rngZero).map
      (fun r => (r.isCompleted, r.isCancelled)) = [(false, false)] := by
  decide

/-- Claim C7 (amended): a status text matching neither vocabulary yields
`isCompleted = false` (and `isCancelled = false`); only when the status
column is absent does the Uber normalizer default `isCompleted` to `true`,
while the DoorDash normalizer requires its status column outright and
produces no records at all without it. -/
theorem claim_C7_amended :
    (∀ s : String, strContainsAnyCI s ["已完成", "completed"] = false →
        strContainsAnyCI s ["已取消", "cancelled"] = false →
        (process_uber_data (uberStatusRowTable s) rngZero).map
          (fun r => (r.isCompleted, r.isCancelled)) = [(false, false)])
    ∧ (∀ s : String, strContainsAnyCI s ["delivered"] = false →
        (process_doordash_data (ddStatusRowTable s)).map (fun r => r.isCompleted) = [false])
    ∧ (∀ (t : RawTable) (rng : ℕ → ℕ), uberStatusCol (uberEff t) ∉ (uberEff t).cols →
        ∀ r ∈ process_uber_data t rng, r.isCompleted = true ∧ r.isCancelled = false)
    ∧ (∀ t : RawTable, "最终订单状态" ∉ t.cols → process_doordash_data t = []) := by
  refine ⟨?_, ?_, ?_, ?_⟩
  · intro s h1 h2
    have hp : (process_uber_data (uberStatusRowTable s) rngZero).map
        (fun r => (r.isCompleted, r.isCancelled))
        = [(uberStatusCompleted s, uberStatusCancelled s)] := rfl
    rw [hp]
    unfold uberStatusCompleted uberStatusCancelled
    rw [h1, h2]
  · intro s h
    have hp : (process_doordash_data (ddStatusRowTable s)).map (fun r => r.isCompleted)
        = [strContainsAnyCI s ["delivered"]] := rfl
    rw [hp, h]
  · intro t rng h r hr
    have h2 := mem_process_uber hr
    unfold ubRecords at h2
    rw [List.mem_filter] at h2
    obtain ⟨h3, -⟩ := h2
    rw [List.mem_map] at h3
    obtain ⟨i, -, rfl⟩ := h3
    exact ⟨by simp [ubRecord, h], by simp [ubRecord, h]⟩
  · intro t h
    unfold process_doordash_data doordashBody
    rw [if_neg (fun hall => h (hall "最终订单状态" (by decide)))]

/-- Witness for the amended C7: a concrete unmatched status text, and a
concrete table with no DoorDash status column. -/
theorem claim_C7_witness :
    (process_uber_data (uberStatusRowTable "未完成") rngZero).map
      (fun r => (r.isCompleted, r.isCancelled)) = [(false, false)]
    ∧ process_doordash_data placeholderGrubhubTable = [] :=
  ⟨claim_C7_amended.1 "未完成" (by decide) (by decide),
   claim_C7_amended.2.2.2 placeholderGrubhubTable (by decide)⟩

theorem quantileSorted_singleton (x p : ℚ) : quantileSorted [x] p = x := by
  unfold quantileSorted
  norm_num

theorem qcut_singleton (x : ℚ) (labels : List String) :
    ∃ e, qcut [some x] labels = Except.error e := by
  unfold qcut
  simp only [List.filterMap, Option.isSome]
  norm_num [sortLe, insertLe, quantileSorted_singleton]

theorem rfm_single_key_error (records : List OrderRecord) (k : String)
    (hne : records ≠ [])
    (hkey : ∀ r ∈ records, r.orderId = some k)
    (hdate : ∃ r ∈ records, r.date.isSome = true) :
    ∃ e, calculate_rfm_scores records = Except.error e := by
  have hie : records.isEmpty = false := by
    cases records with
    | nil => exact absurd rfl hne
    | cons a t => rfl
  have hfm : records.filterMap (fun r => r.orderId) = records.map (fun _ => k) :=
    filterMap_orderId_const records k hkey
  have hded : dedupL (records.filterMap (fun r => r.orderId)) = [k] := by
    rw [hfm]
    apply dedupL_all_eq
    · cases records with
      | nil => exact absurd rfl hne
      | cons a t => simp
    · intro x hx
      rw [List.mem_map] at hx
      obtain ⟨-, -, rfl⟩ := hx
      rfl
  have hfilter : records.filter (fun r => r.orderId == some k) = records := by
    rw [List.filter_eq_self]
    intro r hr
    rw [hkey r hr]
    simp
  obtain ⟨r0, hr0, hd0⟩ := hdate
  have hnil : records.filterMap (fun r => r.date) ≠ [] := by
    obtain ⟨d0, hd0'⟩ := Option.isSome_iff_exists.mp hd0
    have hmem : d0 ∈ records.filterMap (fun r => r.date) :=
      List.mem_filterMap.mpr ⟨r0, hr0, by rw [hd0']⟩
    exact List.ne_nil_of_mem hmem
  obtain ⟨c, hc⟩ := Option.isSome_iff_exists.mp (listMaxDate_isSome _ hnil)
  unfold calculate_rfm_scores
  rw [if_neg (by simp [hie])]
  simp only [hded]
  rw [show sortLe strLe [k] = [k] from rfl]
  simp only [List.map_cons, List.map_nil, hfilter, hc, Option.some_bind, Option.map_some']
  obtain ⟨e, he⟩ :=
    qcut_singleton ((c.rataDie : ℚ) - (c.rataDie : ℚ)) ["4", "3", "2", "1"]
  rw [he]
  exact ⟨e, rfl⟩

/-- Counterexample to claim C4 as stated: on a concrete nonempty dataset with
a single grouping key, `calculate_rfm_scores` does not return any segment
labels — the `qcut` quantile computation fails (duplicate bin edges) and the
error propagates. -/
theorem claim_C4_cex : (calculate_rfm_scores sampleRecords).isOk = false := by
  obtain ⟨e, he⟩ :=
    rfm_single_key_error sampleRecords "A" (by decide) (by decide) (by decide)
  rw [he]
  rfl

/-- Claim C4 (amended): for a nonempty dataset whose records all carry one
and the same grouping key (with at least one usable date), the RFM scoring
function raises a quantile-computation `ValueError` to its caller; no
"insufficient data" segment label exists anywhere in the code. -/
theorem claim_C4_amended (records : List OrderRecord) (k : String)
    (hne : records ≠ [])
    (hkey : ∀ r ∈ records, r.orderId = some k)
    (hdate : ∃ r ∈ records, r.date.isSome = true) :
    ∃ e, calculate_rfm_scores records = Except.error e :=
  rfm_single_key_error records k hne hkey hdate

/-- Witness for the amended C4 at the concrete single-key dataset. -/
theorem claim_C4_witness : calculate_rfm_scores sampleRecords ≠ Except.ok [] := by
  obtain ⟨e, he⟩ :=
    claim_C4_amended sampleRecords "A" (by decide) (by decide) (by decide)
  rw [he]
  simp

theorem getD_range_map {α : Type} (f : ℕ → α) (n i : ℕ) (d : α) (h : i < n) :
    ((List.range n).map f).getD i d = f i := by
  rw [List.getD_eq_getElem?_getD, List.getElem?_map, List.getElem?_range h]
  rfl

/-- Claim C3 (spec-modelled): on a raw table whose date column is entirely
filled with the placeholder pattern, `repairDates` reports `repaired = true`
with a fully non-null synthetic sequence of length `rowCount`, and the
repaired Grubhub normalizer yields one record per input row, each flagged
`wasDateRepaired = true` with `hour`/`dayOfWeek` populated from the
synthetic dates. -/
theorem claim_C3 (t : RawTable)
    (h1 : "transaction_date" ∈ t.cols) (h2 : "merchant_net_total" ∈ t.cols)
    (hph : isPlaceholderColumn (t.colValues "transaction_date") = true) :
    (repairDates (t.colValues "transaction_date") t.rows.length).2 = true
    ∧ ((repairDates (t.colValues "transaction_date") t.rows.length).1).length
        = t.rows.length
    ∧ (∀ d ∈ (repairDates (t.colValues "transaction_date") t.rows.length).1,
        d.isSome = true)
    ∧ (process_grubhub_data_fixed t).length = t.rows.length
    ∧ (∀ r ∈ process_grubhub_data_fixed t,
        r.wasDateRepaired = true ∧ r.hour.isSome = true ∧ r.dayOfWeek.isSome = true) := by
  have htr : repairTrigger (t.colValues "transaction_date") = true := by
    unfold repairTrigger
    rw [hph]
    simp
  have hrd : repairDates (t.colValues "transaction_date") t.rows.length
      = ((List.range t.rows.length).map (fun i => some (syntheticTimestamp i)), true) := by
    unfold repairDates
    rw [if_pos htr]
  have hproc : process_grubhub_data_fixed t
      = ((List.range t.rows.length).map (fun i =>
          let row := t.rows.getD i []
          let tsi := (((List.range t.rows.length).map
            (fun i => some (syntheticTimestamp i))).getD i none)
          { date := tsi.map (fun ts => ts.1)
            platform := "Grubhub"
            revenue := (t.cell row "merchant_net_total").bind parseDecimal
            hour := tsi.map (fun ts => ts.2)
            dayOfWeek := (tsi.map (fun ts => ts.1)).map Date.dayName
            wasDateRepaired := true : RepairedRecord })).filter
        (fun r => r.date.isSome) := by
    unfold process_grubhub_data_fixed
    rw [if_pos ⟨h1, h2⟩]
    simp only [hrd]
  have hall : ∀ r ∈ ((List.range t.rows.length).map (fun i =>
      let row := t.rows.getD i []
      let tsi := (((List.range t.rows.length).map
        (fun i => some (syntheticTimestamp i))).getD i none)
      { date := tsi.map (fun ts => ts.1)
        platform := "Grubhub"
        revenue := (t.cell row "merchant_net_total").bind parseDecimal
        hour := tsi.map (fun ts => ts.2)
        dayOfWeek := (tsi.map (fun ts => ts.1)).map Date.dayName
        wasDateRepaired := true : RepairedRecord })),
      r.date.isSome = true ∧ r.wasDateRepaired = true ∧ r.hour.isSome = true
        ∧ r.dayOfWeek.isSome = true := by
    intro r hr
    rw [List.mem_map] at hr
    obtain ⟨i, hi, rfl⟩ := hr
    rw [List.mem_range] at hi
    simp [getD_range_map _ _ _ _ hi, List.getElem?_range hi]
  refine ⟨?_, ?_, ?_, ?_, ?_⟩
  · rw [hrd]
  · rw [hrd]
    simp
  · rw [hrd]
    intro d hd
    simp only [List.mem_map] at hd
    obtain ⟨i, -, rfl⟩ := hd
    rfl
  · rw [hproc]
    rw [List.filter_eq_self.mpr (fun r hr => (hall r hr).1), List.length_map,
      List.length_range]
  · intro r hr
    rw [hproc] at hr
    have hr2 := List.mem_of_mem_filter hr
    exact ⟨(hall r hr2).2.1, (hall r hr2).2.2.1, (hall r hr2).2.2.2⟩

/-- Witness for C3 at a concrete two-row placeholder-corrupted table. -/
theorem claim_C3_witness :
    (repairDates (placeholderGrubhubTable.colValues "transaction_date")
      placeholderGrubhubTable.rows.length).2 = true
    ∧ ((repairDates (placeholderGrubhubTable.colValues "transaction_date")
        placeholderGrubhubTable.rows.length).1).length
        = placeholderGrubhubTable.rows.length
    ∧ (process_grubhub_data_fixed placeholderGrubhubTable).length
        = placeholderGrubhubTable.rows.length := by
  obtain ⟨a, b, -, d, -⟩ :=
    claim_C3 placeholderGrubhubTable (by decide) (by decide) (by decide)
  exact ⟨a, b, d⟩
